import Mathlib

/-!
Shallow embedding of the fuel-price aggregation pipeline implemented by the
class `DataFrameHolder` in `src/processor/data_processor.py` (the copy in
`src/data_processor/data_processor.py` carries the same processing logic,
differing only in attribute privacy and in the directory names used for
input and output paths).

Modelling conventions:
* machine floating-point values are abstracted to exact rationals `ℚ`;
* a pandas missing value (NaN in a price column, null in a text column) is
  `Option.none`;
* a raised Python exception is `Except.error` carrying the exception class
  (`PyErr`); code that lets an exception escape is a function returning
  `Except PyErr _`;
* dataframes are lists of typed rows, in file row order; a `groupby` on the
  key column is embedded as, per key, the sublist of rows carrying that key
  (pandas keeps the original row order inside each group).  The order in
  which the groups themselves are emitted is abstracted (the deduplicated
  key list), since no property below depends on group order;
* the `tkinter` message boxes are side effects; the embedding records which
  dialog class was shown instead of rendering it.
-/

namespace FuelPipeline

/-- Python built-in exception classes that the embedded code can raise.
The source defines no exception type of its own: every failure it lets
escape is one of these generic classes. -/
inductive PyErr
  | typeError
  | valueError
  | zeroDivisionError
  | indexError
deriving DecidableEq, Repr

/-- The six fuel price columns, in the order of `self.price_columns`
(`'Gazole_prix', 'SP98_prix', 'SP95_prix', 'E85_prix', 'E10_prix',
'GPLc_prix'`).  Each cell is a price or a missing value (NaN). -/
structure Prices where
  gazole : Option ℚ
  sp98 : Option ℚ
  sp95 : Option ℚ
  e85 : Option ℚ
  e10 : Option ℚ
  gplc : Option ℚ
deriving DecidableEq, Repr

/-- Selects one of the six fuel columns by its position in
`self.price_columns`. -/
def fuelSel (j : Fin 6) (p : Prices) : Option ℚ :=
  match j with
  | ⟨0, _⟩ => p.gazole
  | ⟨1, _⟩ => p.sp98
  | ⟨2, _⟩ => p.sp95
  | ⟨3, _⟩ => p.e85
  | ⟨4, _⟩ => p.e10
  | ⟨5, _⟩ => p.gplc

/-- One raw CSV row after the projection onto `useful_columns`
(`'Région', 'Département', 'Code postal', 'Ville', 'geom'` plus the six
price columns); every other input column is dropped there and never
referenced again, so the embedding omits them.  `'Code postal'` is read
with `dtype str`, hence a `String` here.  The `geom` cell is the text the
cleaning lambda receives (`"<lat>, <lon>"`, possibly empty). -/
structure RawRow where
  region : Option String
  departement : Option String
  codePostal : String
  ville : String
  geom : String
  prices : Prices
deriving DecidableEq, Repr

/-- A row between key synthesis and geometry decoding: the
`'Ville'`/`'Code postal'` columns have been replaced by the synthesized
`cp_ville` key column. -/
structure KeyedRow where
  region : Option String
  departement : Option String
  geom : String
  prices : Prices
  cp_ville : String
deriving DecidableEq, Repr

/-- A fully cleaned row: `geom` has been decoded into a list of rationals. -/
structure CleanRow where
  region : Option String
  departement : Option String
  geom : List ℚ
  prices : Prices
  cp_ville : String
deriving DecidableEq, Repr

/-- The key synthesis of `_data_cleaning`:
`self.data_frame['cp_ville'] = self.data_frame['Code postal'] + ' ' +
self.data_frame['Ville']`. -/
def mkKey (r : RawRow) : String :=
  r.codePostal ++ " " ++ r.ville

/-- Applies the key synthesis to one row and drops the now unused
`'Ville'` and `'Code postal'` columns
(`self.data_frame.drop(columns=['Ville', 'Code postal'])`). -/
def addKey (r : RawRow) : KeyedRow :=
  { region := r.region
    departement := r.departement
    geom := r.geom
    prices := r.prices
    cp_ville := mkKey r }

/-- Row-order traversal that stops at the first raised exception, as a
pandas column `apply` does. -/
def mapOrFail {α β : Type} (f : α → Except PyErr β) : List α → Except PyErr (List β)
  | [] => Except.ok []
  | a :: l =>
    match f a with
    | Except.error e => Except.error e
    | Except.ok b =>
      match mapOrFail f l with
      | Except.error e => Except.error e
      | Except.ok bs => Except.ok (b :: bs)

/-- Accumulates a decimal digit string left to right; `none` as soon as a
non-digit character appears. -/
def digitsValAux (acc : ℕ) : List Char → Option ℕ
  | [] => some acc
  | c :: cs => if c.isDigit then digitsValAux (10 * acc + (c.toNat - 48)) cs else none

/-- Value of an unsigned decimal literal (`"48"`, `"48.0"`, `".5"`,
`"1."`): an integer part and at most one fractional part, at least one
digit in total, nothing else. -/
def parseUnsigned (body : List Char) : Option ℚ :=
  match body.splitOn '.' with
  | [ip] =>
    if ip.isEmpty then none
    else (digitsValAux 0 ip).map (fun n => (n : ℚ))
  | [ip, fp] =>
    if ip.isEmpty && fp.isEmpty then none
    else
      match digitsValAux 0 ip, digitsValAux 0 fp with
      | some n, some f => some ((n : ℚ) + (f : ℚ) / (10 : ℚ) ^ fp.length)
      | _, _ => none
  | _ => none

/-- Python's `float(...)` on the decimal literal forms that occur in the
geometry column: an optional sign, digits, an optional single decimal
point.  Any other string fails (in Python: raises `ValueError`). -/
def parseFloat (s : String) : Option ℚ :=
  match s.data with
  | '-' :: cs => (parseUnsigned cs).map (fun q => -q)
  | '+' :: cs => parseUnsigned cs
  | cs => parseUnsigned cs

/-- The geometry-decoding lambda of `_data_cleaning`:
`[float(coord) for coord in x.split(', ') if coord]`.
The split components are filtered for truthiness (the empty string is
dropped) and each remaining one is converted by `float`, which raises
`ValueError` on a non-numeric component. -/
def decodeGeom (g : String) : Except PyErr (List ℚ) :=
  mapOrFail
    (fun c =>
      match parseFloat c with
      | some q => Except.ok q
      | none => Except.error PyErr.valueError)
    ((g.splitOn ", ").filter (fun c => c ≠ ""))

/-- Geometry decoding applied to one keyed row. -/
def decodeKeyed (r : KeyedRow) : Except PyErr CleanRow :=
  match decodeGeom r.geom with
  | Except.error e => Except.error e
  | Except.ok g =>
    Except.ok
      { region := r.region
        departement := r.departement
        geom := g
        prices := r.prices
        cp_ville := r.cp_ville }

/-- `_data_cleaning`, in the source's statement order: project onto
`useful_columns` (already reflected in `RawRow`), synthesize `cp_ville`
for every row and drop `'Ville'`/`'Code postal'`, then
`dropna(subset=['Région'])`, then decode the `geom` column.  The geometry
`apply` runs only on the rows that survived the region filter, and an
exception raised inside it escapes `_data_cleaning`. -/
def data_cleaning (rows : List RawRow) : Except PyErr (List CleanRow) :=
  mapOrFail decodeKeyed
    (((rows.map addKey)).filter (fun r => r.region.isSome))

/-- The group of a key: the cleaned rows carrying that `cp_ville`, in row
order (pandas `groupby` preserves the original order inside a group). -/
def rowsOf (rows : List CleanRow) (k : String) : List CleanRow :=
  rows.filter (fun r => r.cp_ville == k)

/-- The distinct `cp_ville` keys of the cleaned table.  (pandas emits the
groups sorted by key; no property below depends on group order, so the
embedding uses the deduplicated key list.) -/
def groupKeys (rows : List CleanRow) : List String :=
  (rows.map (fun r => r.cp_ville)).dedup

/-- The `'Région'` entry of `city_geo_mapping` for one key: pandas
`GroupBy.first()` returns the first non-null value of the column within
the group. -/
def city_geo_region (rows : List CleanRow) (k : String) : Option String :=
  ((rowsOf rows k).filterMap (fun r => r.region)).head?

/-- The `'Département'` entry of `city_geo_mapping` for one key (first
non-null value within the group). -/
def city_geo_departement (rows : List CleanRow) (k : String) : Option String :=
  ((rowsOf rows k).filterMap (fun r => r.departement)).head?

/-- pandas `GroupBy.mean()` on one price column of one group: the
arithmetic mean of the non-missing values; NaN (here `none`) when every
value of the group is missing. -/
def priceColMean (vals : List (Option ℚ)) : Option ℚ :=
  let present := vals.filterMap id
  if present.isEmpty then none else some (present.sum / present.length)

/-- The `city_prices_means` row of one key: the six per-fuel means. -/
def city_prices_means (rows : List CleanRow) (k : String) : Prices :=
  { gazole := priceColMean ((rowsOf rows k).map (fun r => r.prices.gazole))
    sp98 := priceColMean ((rowsOf rows k).map (fun r => r.prices.sp98))
    sp95 := priceColMean ((rowsOf rows k).map (fun r => r.prices.sp95))
    e85 := priceColMean ((rowsOf rows k).map (fun r => r.prices.e85))
    e10 := priceColMean ((rowsOf rows k).map (fun r => r.prices.e10))
    gplc := priceColMean ((rowsOf rows k).map (fun r => r.prices.gplc)) }

/-- Python list indexing `l[i]`: `IndexError` when out of range. -/
def pyIndex (l : List ℚ) (i : ℕ) : Except PyErr ℚ :=
  match l.get? i with
  | some v => Except.ok v
  | none => Except.error PyErr.indexError

/-- Python division `a / n` with an integer denominator:
`ZeroDivisionError` when `n = 0`. -/
def pyDiv (a : ℚ) (n : ℕ) : Except PyErr ℚ :=
  if n = 0 then Except.error PyErr.zeroDivisionError else Except.ok (a / n)

/-- `_mean_coords`: from the group's list of decoded geometry lists, keep
the truthy (non-empty) ones, read `coord[0]` into `latitudes` and
`coord[1]` into `longitudes`, and divide each sum by the respective
length.  The division is unguarded: an empty `latitudes` raises
`ZeroDivisionError`. -/
def mean_coords (coords_list : List (List ℚ)) : Except PyErr (ℚ × ℚ) :=
  let kept := coords_list.filter (fun c => !c.isEmpty)
  match mapOrFail (fun c => pyIndex c 0) kept with
  | Except.error e => Except.error e
  | Except.ok latitudes =>
    match mapOrFail (fun c => pyIndex c 1) kept with
    | Except.error e => Except.error e
    | Except.ok longitudes =>
      match pyDiv latitudes.sum latitudes.length with
      | Except.error e => Except.error e
      | Except.ok latMean =>
        match pyDiv longitudes.sum longitudes.length with
        | Except.error e => Except.error e
        | Except.ok lonMean => Except.ok (latMean, lonMean)

/-- One output row: the columns of the merged dataframe in
`_compute_new_dataframe`, in merged column order (`merge` keeps the left
frame's columns first, and `city_geo_mapping.reset_index()` puts
`cp_ville` in front of `'Région'` and `'Département'`). -/
structure CityAggregate where
  cp_ville : String
  region : Option String
  departement : Option String
  prices : Prices
  latitude : ℚ
  longitude : ℚ
  apparition : ℕ
deriving DecidableEq, Repr

/-- Assembles the output row of one key out of the four reductions of
`_compute_new_dataframe` (geo mapping, price means, coordinate means,
`size()` count).  The coordinate reduction is the only one that can
raise. -/
def mkAggregate (rows : List CleanRow) (k : String) : Except PyErr CityAggregate :=
  match mean_coords ((rowsOf rows k).map (fun r => r.geom)) with
  | Except.error e => Except.error e
  | Except.ok coords =>
    Except.ok
      { cp_ville := k
        region := city_geo_region rows k
        departement := city_geo_departement rows k
        prices := city_prices_means rows k
        latitude := coords.1
        longitude := coords.2
        apparition := (rowsOf rows k).length }

/-- `_compute_new_dataframe`: the four reductions all group by `cp_ville`
over the same cleaned table, so each produces exactly one entry per
distinct key and the merge on `cp_ville` pairs them key by key; the
embedding therefore assembles the merged row per key directly.  If
`_mean_coords` raises on any group, the exception escapes before any
output table exists. -/
def compute_new_dataframe (rows : List CleanRow) : Except PyErr (List CityAggregate) :=
  mapOrFail (mkAggregate rows) (groupKeys rows)

/-- `process_data`: `_data_cleaning` then `_compute_new_dataframe`. -/
def process_data (rows : List RawRow) : Except PyErr (List CityAggregate) :=
  match data_cleaning rows with
  | Except.error e => Except.error e
  | Except.ok cleaned => compute_new_dataframe cleaned

/-- The state of the input file the load can encounter. -/
inductive FileState
  | missing
  | presentEmpty
  | corrupt
  | present (rows : List RawRow)

/-- Exceptions `pd.read_csv` raises in the three failure states:
`FileNotFoundError` for a missing file, `pd.errors.EmptyDataError` for a
file with no data, and some other exception (a parse error, say) for
anything else. -/
inductive ReadExc
  | fileNotFoundError
  | emptyDataError
  | parserError
deriving DecidableEq, Repr

/-- The underlying `pd.read_csv(csv_path, dtype=..., delimiter=';')`
call, abstracted over the file state. -/
def read_csv : FileState → Except ReadExc (List RawRow)
  | FileState.missing => Except.error ReadExc.fileNotFoundError
  | FileState.presentEmpty => Except.error ReadExc.emptyDataError
  | FileState.corrupt => Except.error ReadExc.parserError
  | FileState.present rows => Except.ok rows

/-- Which error dialog `load_csv_file` shows: the `messagebox.showerror`
of the `FileNotFoundError` branch (its text carries the attempted path),
of the `EmptyDataError` branch, or of the catch-all `Exception` branch. -/
inductive LoadDialog
  | fileNotFound
  | emptyData
  | otherError
deriving DecidableEq, Repr

/-- `load_csv_file`: try the read; on success return the dataframe, on
any of the three handled exception classes show the corresponding error
dialog and return `None`.  No exception propagates to the caller, and no
typed error value is produced — the failure result is always `None`
plus a dialog side effect. -/
def load_csv_file (fs : FileState) : Option (List RawRow) × Option LoadDialog :=
  match read_csv fs with
  | Except.ok df => (some df, none)
  | Except.error ReadExc.fileNotFoundError => (none, some LoadDialog.fileNotFound)
  | Except.error ReadExc.emptyDataError => (none, some LoadDialog.emptyData)
  | Except.error ReadExc.parserError => (none, some LoadDialog.otherError)

/-- The holder after `__init__`: `self.data_frame` is whatever
`load_csv_file` returned (possibly `None`). -/
structure DataFrameHolder where
  data_frame : Option (List RawRow)

/-- `DataFrameHolder.__init__(file_name)`: stores the load result; the
constructor itself raises nothing. -/
def DataFrameHolder.init (fs : FileState) : DataFrameHolder :=
  { data_frame := (load_csv_file fs).1 }

/-- `_data_cleaning` as invoked on the holder: when `self.data_frame` is
`None`, its first statement `self.data_frame[useful_columns]` subscripts
`None` and raises `TypeError`, which nothing catches. -/
def holder_data_cleaning : Option (List RawRow) → Except PyErr (List CleanRow)
  | none => Except.error PyErr.typeError
  | some rows => data_cleaning rows

/-- `process_data` as invoked on the holder. -/
def DataFrameHolder.process_data (h : DataFrameHolder) : Except PyErr (List CityAggregate) :=
  match holder_data_cleaning h.data_frame with
  | Except.error e => Except.error e
  | Except.ok cleaned => compute_new_dataframe cleaned

/-- The header of the saved CSV: the merged dataframe's columns in order
(`to_csv` with `index=False` writes exactly the columns). -/
def csvHeader : List String :=
  ["cp_ville", "Région", "Département",
   "Gazole_prix", "SP98_prix", "SP95_prix", "E85_prix", "E10_prix", "GPLc_prix",
   "Latitude", "Longitude", "Apparition"]

/-- `to_csv` cell text of an optional numeric value: a missing value is
written as the empty field. -/
def csvCellOpt (v : Option ℚ) : String :=
  match v with
  | none => ""
  | some q => toString q

/-- `to_csv` cell text of an optional text value: a missing value is
written as the empty field. -/
def csvCellStr (v : Option String) : String :=
  v.getD ""

/-- One data record of the saved CSV, cell by cell, in header order. -/
def aggRecord (a : CityAggregate) : List String :=
  [a.cp_ville, csvCellStr a.region, csvCellStr a.departement,
   csvCellOpt a.prices.gazole, csvCellOpt a.prices.sp98, csvCellOpt a.prices.sp95,
   csvCellOpt a.prices.e85, csvCellOpt a.prices.e10, csvCellOpt a.prices.gplc,
   toString a.latitude, toString a.longitude, toString a.apparition]

/-- The rows of the saved file: the header then one record per
aggregate, in table order. -/
def csvRows (aggs : List CityAggregate) : List (List String) :=
  csvHeader :: aggs.map aggRecord

/-- `save_processed_dataframe`'s `self.data_frame.to_csv(file_path,
index=False)`: comma-delimited lines, header first. -/
def to_csv (aggs : List CityAggregate) : String :=
  String.intercalate "\n" ((csvRows aggs).map (String.intercalate ","))

/-! Helper lemmas about the traversal `mapOrFail` and the cleaning
correspondence, shared by the claim theorems below. -/

theorem mapOrFail_nil {α β : Type} (f : α → Except PyErr β) :
    mapOrFail f [] = Except.ok [] := rfl

theorem mapOrFail_cons_error {α β : Type} {f : α → Except PyErr β} {a : α}
    {e : PyErr} (l : List α) (h : f a = Except.error e) :
    mapOrFail f (a :: l) = Except.error e := by
  simp [mapOrFail, h]

theorem mapOrFail_cons_ok {α β : Type} {f : α → Except PyErr β} {a : α}
    {b : β} (l : List α) (h : f a = Except.ok b) :
    mapOrFail f (a :: l) = Except.map (fun bs => b :: bs) (mapOrFail f l) := by
  simp only [mapOrFail, h]
  cases mapOrFail f l <;> rfl

theorem mapOrFail_ok_mem {α β : Type} {f : α → Except PyErr β} :
    ∀ {l : List α} {out : List β}, mapOrFail f l = Except.ok out →
      ∀ b ∈ out, ∃ a ∈ l, f a = Except.ok b := by
  intro l
  induction l with
  | nil =>
    intro out h b hb
    rw [mapOrFail_nil] at h
    cases h
    simp at hb
  | cons a l ih =>
    intro out h b hb
    cases hfa : f a with
    | error e => rw [mapOrFail_cons_error l hfa] at h; cases h
    | ok b0 =>
      rw [mapOrFail_cons_ok l hfa] at h
      cases hrec : mapOrFail f l with
      | error e => rw [hrec] at h; cases h
      | ok bs =>
        rw [hrec] at h
        cases h
        rcases List.mem_cons.mp hb with hb0 | hbs
        · exact ⟨a, List.mem_cons_self a l, hb0 ▸ hfa⟩
        · rcases ih hrec b hbs with ⟨a', ha', hfa'⟩
          exact ⟨a', List.mem_cons_of_mem a ha', hfa'⟩

theorem mapOrFail_error_mem {α β : Type} {f : α → Except PyErr β} :
    ∀ {l : List α} {e : PyErr}, mapOrFail f l = Except.error e →
      ∃ a ∈ l, f a = Except.error e := by
  intro l
  induction l with
  | nil => intro e h; rw [mapOrFail_nil] at h; cases h
  | cons a l ih =>
    intro e h
    cases hfa : f a with
    | error e0 =>
      rw [mapOrFail_cons_error l hfa] at h
      cases h
      exact ⟨a, List.mem_cons_self a l, hfa⟩
    | ok b0 =>
      rw [mapOrFail_cons_ok l hfa] at h
      cases hrec : mapOrFail f l with
      | error e0 =>
        rw [hrec] at h
        cases h
        rcases ih hrec with ⟨a', ha', hfa'⟩
        exact ⟨a', List.mem_cons_of_mem a ha', hfa'⟩
      | ok bs => rw [hrec] at h; cases h

theorem mapOrFail_ok_map_eq {α β γ : Type} {f : α → Except PyErr β}
    {g : β → γ} {h : α → γ} (hgh : ∀ a b, f a = Except.ok b → g b = h a) :
    ∀ {l : List α} {out : List β}, mapOrFail f l = Except.ok out →
      out.map g = l.map h := by
  intro l
  induction l with
  | nil =>
    intro out hm
    rw [mapOrFail_nil] at hm
    cases hm
    rfl
  | cons a l ih =>
    intro out hm
    cases hfa : f a with
    | error e => rw [mapOrFail_cons_error l hfa] at hm; cases hm
    | ok b0 =>
      rw [mapOrFail_cons_ok l hfa] at hm
      cases hrec : mapOrFail f l with
      | error e => rw [hrec] at hm; cases hm
      | ok bs =>
        rw [hrec] at hm
        cases hm
        simp only [List.map_cons]
        rw [hgh a b0 hfa, ih hrec]

theorem mapOrFail_ok_length {α β : Type} {f : α → Except PyErr β}
    {l : List α} {out : List β} (hm : mapOrFail f l = Except.ok out) :
    out.length = l.length := by
  have := mapOrFail_ok_map_eq (g := fun _ => ()) (h := fun _ => ())
    (fun _ _ _ => rfl) hm
  have h1 := congrArg List.length this
  simpa using h1

theorem decodeKeyed_ok_fields {r : KeyedRow} {c : CleanRow}
    (h : decodeKeyed r = Except.ok c) :
    c.region = r.region ∧ c.departement = r.departement ∧ c.prices = r.prices ∧
      c.cp_ville = r.cp_ville ∧ decodeGeom r.geom = Except.ok c.geom := by
  unfold decodeKeyed at h
  cases hg : decodeGeom r.geom with
  | error e => rw [hg] at h; cases h
  | ok g => rw [hg] at h; cases h; exact ⟨rfl, rfl, rfl, rfl, rfl⟩

theorem data_cleaning_ok_corr {rows : List RawRow} {cleaned : List CleanRow}
    (h : data_cleaning rows = Except.ok cleaned) :
    cleaned.map (fun c => (c.cp_ville, c.region, c.departement, c.prices)) =
      (rows.filter (fun r => r.region.isSome)).map
        (fun r => (mkKey r, r.region, r.departement, r.prices)) := by
  unfold data_cleaning at h
  have h1 := mapOrFail_ok_map_eq
    (g := fun c : CleanRow => (c.cp_ville, c.region, c.departement, c.prices))
    (h := fun kr : KeyedRow => (kr.cp_ville, kr.region, kr.departement, kr.prices))
    (fun kr c hc => by
      rcases decodeKeyed_ok_fields hc with ⟨e1, e2, e3, e4, _⟩
      simp [e1, e2, e3, e4]) h
  rw [h1, List.filter_map, List.map_map]
  rfl

theorem filtered_map_of_pair_map_eq {α β γ : Type}
    (k1 : α → String) (f1 : α → γ) (k2 : β → String) (f2 : β → γ)
    {l1 : List α} {l2 : List β}
    (h : l1.map (fun a => (k1 a, f1 a)) = l2.map (fun b => (k2 b, f2 b)))
    (k : String) :
    (l1.filter (fun a => k1 a == k)).map f1 =
      (l2.filter (fun b => k2 b == k)).map f2 := by
  have e1 : (l1.filter (fun a => k1 a == k)).map f1 =
      ((l1.map (fun a => (k1 a, f1 a))).filter
        (fun p => p.1 == k)).map (fun p => p.2) := by
    rw [List.filter_map, List.map_map]
    rfl
  have e2 : (l2.filter (fun b => k2 b == k)).map f2 =
      ((l2.map (fun b => (k2 b, f2 b))).filter
        (fun p => p.1 == k)).map (fun p => p.2) := by
    rw [List.filter_map, List.map_map]
    rfl
  rw [e1, e2, h]

theorem filter_and_comm {α : Type} (p q : α → Bool) (l : List α) :
    l.filter (fun a => p a && q a) = l.filter (fun a => q a && p a) :=
  List.filter_congr (fun x _ => by cases p x <;> cases q x <;> rfl)

theorem mkAggregate_ok_fields {rows : List CleanRow} {k : String}
    {a : CityAggregate} (h : mkAggregate rows k = Except.ok a) :
    a.cp_ville = k ∧ a.region = city_geo_region rows k ∧
      a.departement = city_geo_departement rows k ∧
      a.prices = city_prices_means rows k ∧
      a.apparition = (rowsOf rows k).length := by
  unfold mkAggregate at h
  cases hc : mean_coords ((rowsOf rows k).map (fun r => r.geom)) with
  | error e => rw [hc] at h; cases h
  | ok coords => rw [hc] at h; cases h; exact ⟨rfl, rfl, rfl, rfl, rfl⟩

theorem compute_ok_keys {cleaned : List CleanRow} {aggs : List CityAggregate}
    (h : compute_new_dataframe cleaned = Except.ok aggs) :
    aggs.map (fun a => a.cp_ville) = groupKeys cleaned := by
  unfold compute_new_dataframe at h
  have h1 := mapOrFail_ok_map_eq (g := fun a : CityAggregate => a.cp_ville)
    (h := fun k => k) (fun k a hk => (mkAggregate_ok_fields hk).1) h
  simpa using h1

theorem pyIndex_error {l : List ℚ} {i : ℕ} {e : PyErr}
    (h : pyIndex l i = Except.error e) : e = PyErr.indexError := by
  unfold pyIndex at h
  cases hg : l.get? i with
  | none => rw [hg] at h; cases h; rfl
  | some v => rw [hg] at h; cases h

/-- C1 (counterexample): run against a missing input file, `load_csv_file`
hands the caller back `None` — together with a file-not-found error dialog —
rather than surfacing a typed, catchable failure value, refuting the claim
that it never returns a `None` table. -/
theorem c1_counterexample :
    load_csv_file FileState.missing = (none, some LoadDialog.fileNotFound) := rfl

/-- C1 (amended): for every load attempt, each failure class of the
underlying read — file absent, file with zero data rows, any other I/O or
parse failure — is caught inside `load_csv_file`, which shows the error
dialog of that class and returns `None` to the caller; no exception
propagates out of the loader, and a successful read returns the complete
table with no dialog. -/
theorem c1_load_failures_caught :
    ∀ fs : FileState,
      (read_csv fs = Except.error ReadExc.fileNotFoundError →
        load_csv_file fs = (none, some LoadDialog.fileNotFound)) ∧
      (read_csv fs = Except.error ReadExc.emptyDataError →
        load_csv_file fs = (none, some LoadDialog.emptyData)) ∧
      (read_csv fs = Except.error ReadExc.parserError →
        load_csv_file fs = (none, some LoadDialog.otherError)) ∧
      (∀ rows, read_csv fs = Except.ok rows →
        load_csv_file fs = (some rows, none)) := by
  intro fs
  refine ⟨fun h => ?_, fun h => ?_, fun h => ?_, fun rows h => ?_⟩ <;>
    simp [load_csv_file, h]

/-- C1 (witness): the amended theorem applied to the missing-file state. -/
theorem c1_witness :
    load_csv_file FileState.missing = (none, some LoadDialog.fileNotFound) :=
  (c1_load_failures_caught FileState.missing).1 rfl

/-- C10: whenever loading fails (for any of the failure states),
`DataFrameHolder.__init__` still completes normally with `data_frame` set
to `None`; a subsequent `process_data` on such a holder then raises an
uncaught generic `TypeError` from the first statement of the cleaning
stage (`None` is not subscriptable), not a typed, catchable error. -/
theorem c10_init_none_then_cleaning_raises :
    ∀ fs : FileState, (load_csv_file fs).1 = none →
      (DataFrameHolder.init fs).data_frame = none ∧
      holder_data_cleaning (DataFrameHolder.init fs).data_frame =
        Except.error PyErr.typeError ∧
      (DataFrameHolder.init fs).process_data = Except.error PyErr.typeError := by
  intro fs h
  have hd : (DataFrameHolder.init fs).data_frame = none := h
  refine ⟨hd, ?_, ?_⟩
  · rw [hd]
    rfl
  · unfold DataFrameHolder.process_data
    rw [hd]
    rfl

/-- C10 (witness): the theorem applied to the missing-file state. -/
theorem c10_witness :
    (DataFrameHolder.init FileState.missing).data_frame = none ∧
      holder_data_cleaning (DataFrameHolder.init FileState.missing).data_frame =
        Except.error PyErr.typeError ∧
      (DataFrameHolder.init FileState.missing).process_data =
        Except.error PyErr.typeError :=
  c10_init_none_then_cleaning_raises FileState.missing rfl

/-- C9 (counterexample): the persisted table's columns are not ordered
region, department, city-key, …: the merged dataframe puts the `cp_ville`
key column first, so the written header differs from the claimed order. -/
theorem c9_counterexample :
    csvHeader ≠
      ["Région", "Département", "cp_ville",
       "Gazole_prix", "SP98_prix", "SP95_prix", "E85_prix", "E10_prix",
       "GPLc_prix", "Latitude", "Longitude", "Apparition"] := by
  decide

/-- C9 (amended): the persisted output table is a comma-delimited file with
a header row and one row per CityAggregate, whose columns are, in order:
city-key, region, department, the six fuel-price means (absent values
serialized as empty fields), mean latitude, mean longitude, station count. -/
theorem c9_output_format :
    csvHeader =
      ["cp_ville", "Région", "Département",
       "Gazole_prix", "SP98_prix", "SP95_prix", "E85_prix", "E10_prix",
       "GPLc_prix", "Latitude", "Longitude", "Apparition"] ∧
    (∀ aggs : List CityAggregate, csvRows aggs = csvHeader :: aggs.map aggRecord) ∧
    (∀ aggs : List CityAggregate, (csvRows aggs).length = aggs.length + 1) ∧
    (∀ aggs : List CityAggregate,
        to_csv aggs =
          String.intercalate "\n" ((csvRows aggs).map (String.intercalate ","))) ∧
    (∀ a : CityAggregate,
        aggRecord a =
          [a.cp_ville, csvCellStr a.region, csvCellStr a.departement,
           csvCellOpt a.prices.gazole, csvCellOpt a.prices.sp98,
           csvCellOpt a.prices.sp95, csvCellOpt a.prices.e85,
           csvCellOpt a.prices.e10, csvCellOpt a.prices.gplc,
           toString a.latitude, toString a.longitude, toString a.apparition]) ∧
    csvCellOpt none = "" ∧ csvCellStr none = "" := by
  refine ⟨rfl, fun aggs => rfl, fun aggs => ?_, fun aggs => rfl, fun a => rfl, rfl, rfl⟩
  simp [csvRows]

/-- C3: the coordinate-mean reduction is unguarded against an empty
per-city coordinate list: whenever a group contains at least one
successfully decoded (non-empty) geometry, `_mean_coords` cannot raise
`ZeroDivisionError`; but on a cleaned input whose only city key carries
only empty decoded geometry lists, the aggregation divides by a zero count
and the run fails with `ZeroDivisionError`. -/
theorem c3_mean_coords_unguarded :
    (∀ coords : List (List ℚ), (∃ c ∈ coords, c ≠ []) →
        mean_coords coords ≠ Except.error PyErr.zeroDivisionError) ∧
    compute_new_dataframe
        [{ region := some "Île-de-France", departement := some "Paris",
           geom := [],
           prices := ⟨none, none, none, none, none, none⟩,
           cp_ville := "75001 Paris" }] =
      Except.error PyErr.zeroDivisionError := by
  constructor
  · rintro coords ⟨c, hc, hne⟩ hcontra
    have hck : c ∈ coords.filter (fun c => !c.isEmpty) := by
      refine List.mem_filter.mpr ⟨hc, ?_⟩
      simpa using hne
    have hkept : coords.filter (fun c => !c.isEmpty) ≠ [] :=
      List.ne_nil_of_mem hck
    simp only [mean_coords] at hcontra
    cases h1 : mapOrFail (fun c => pyIndex c 0) (coords.filter (fun c => !c.isEmpty)) with
    | error e =>
      rw [h1] at hcontra
      cases hcontra
      rcases mapOrFail_error_mem h1 with ⟨a, _, ha⟩
      cases pyIndex_error ha
    | ok latitudes =>
      rw [h1] at hcontra
      have hlat : latitudes.length ≠ 0 := by
        rw [mapOrFail_ok_length h1]
        simpa [List.length_eq_zero] using hkept
      cases h2 : mapOrFail (fun c => pyIndex c 1) (coords.filter (fun c => !c.isEmpty)) with
      | error e =>
        rw [h2] at hcontra
        cases hcontra
        rcases mapOrFail_error_mem h2 with ⟨a, _, ha⟩
        cases pyIndex_error ha
      | ok longitudes =>
        rw [h2] at hcontra
        have hlon : longitudes.length ≠ 0 := by
          rw [mapOrFail_ok_length h2]
          simpa [List.length_eq_zero] using hkept
        simp [pyDiv, hlat, hlon] at hcontra
  · with_unfolding_all rfl

/-- C3 (witness): the no-zero-division half applied to a group with one
decoded geometry. -/
theorem c3_witness :
    mean_coords [[(48 : ℚ), 2]] ≠ Except.error PyErr.zeroDivisionError :=
  c3_mean_coords_unguarded.1 [[(48 : ℚ), 2]]
    ⟨[(48 : ℚ), 2], List.mem_singleton.mpr rfl, by simp⟩

/-- C2 (counterexample): a row whose geometry components fail to parse as
floating-point numbers aborts the pipeline run: `float('abc')` raises an
uncaught `ValueError` inside the cleaning stage's geometry `apply`,
refuting the claim that such rows never abort the run. -/
theorem c2_counterexample :
    process_data
        [{ region := some "Île-de-France", departement := some "Paris",
           codePostal := "75001", ville := "Paris", geom := "abc, 2.0",
           prices := ⟨none, none, none, none, none, none⟩ }] =
      Except.error PyErr.valueError := by
  with_unfolding_all rfl

/-- C2 (amended): a row whose geometry field is the empty string does not
abort the run: it decodes to the empty coordinate list, is excluded from
the coordinate averaging of its city (empty lists are dropped from
`_mean_coords`' input wherever they occur), and its price values still
contribute unchanged to the city's per-fuel price means; a row whose
geometry components fail to parse as floats, by contrast, aborts the run
(see the counterexample). -/
theorem c2_empty_geometry_recovered :
    decodeGeom "" = Except.ok [] ∧
    (∀ l1 l2 : List (List ℚ),
        mean_coords (l1 ++ [] :: l2) = mean_coords (l1 ++ l2)) ∧
    (∀ (rows : List CleanRow) (k : String),
        city_prices_means
            (rows.map (fun r => { r with geom := ([] : List ℚ) })) k =
          city_prices_means rows k) := by
  refine ⟨by with_unfolding_all rfl, fun l1 l2 => ?_, fun rows k => ?_⟩
  · simp [mean_coords, List.filter_append]
  · simp only [city_prices_means, rowsOf, List.filter_map, List.map_map]
    rfl

/-- C5: each CityKey appears at most once among the rows of the final
aggregated table, and any two input rows with identical city name but
different postal codes receive different CityKeys, hence are attributed to
different output rows. -/
theorem c5_citykey_unique :
    (∀ (cleaned : List CleanRow) (aggs : List CityAggregate),
        compute_new_dataframe cleaned = Except.ok aggs →
        (aggs.map (fun a => a.cp_ville)).Nodup) ∧
    (∀ r1 r2 : RawRow, r1.ville = r2.ville → r1.codePostal ≠ r2.codePostal →
        mkKey r1 ≠ mkKey r2) := by
  constructor
  · intro cleaned aggs h
    rw [compute_ok_keys h]
    exact List.nodup_dedup _
  · intro r1 r2 hv hcp h
    apply hcp
    have hd : (mkKey r1).data = (mkKey r2).data := congrArg String.data h
    simp only [mkKey, hv] at hd
    have hd1 : (r1.codePostal ++ " ").data ++ r2.ville.data =
        (r2.codePostal ++ " ").data ++ r2.ville.data := hd
    have hd2 := List.append_cancel_right hd1
    have hd3 : r1.codePostal.data ++ " ".data = r2.codePostal.data ++ " ".data := hd2
    exact String.ext (List.append_cancel_right hd3)

/-- C5 (witness): the theorem applied to a concrete one-city run and to a
concrete pair of rows sharing the city name. -/
theorem c5_witness :
    (List.map (fun a : CityAggregate => a.cp_ville)
        [{ cp_ville := "75001 Paris", region := some "Île-de-France",
           departement := some "Paris",
           prices := ⟨none, none, none, none, none, none⟩,
           latitude := 48, longitude := 2, apparition := 1 }]).Nodup ∧
    mkKey { region := some "Île-de-France", departement := some "Paris",
            codePostal := "75001", ville := "Paris", geom := "48, 2",
            prices := ⟨none, none, none, none, none, none⟩ } ≠
      mkKey { region := some "Auvergne-Rhône-Alpes", departement := some "Rhône",
              codePostal := "69001", ville := "Paris", geom := "45, 4",
              prices := ⟨none, none, none, none, none, none⟩ } :=
  ⟨c5_citykey_unique.1
      [{ region := some "Île-de-France", departement := some "Paris",
         geom := [48, 2], prices := ⟨none, none, none, none, none, none⟩,
         cp_ville := "75001 Paris" }]
      [{ cp_ville := "75001 Paris", region := some "Île-de-France",
         departement := some "Paris",
         prices := ⟨none, none, none, none, none, none⟩,
         latitude := 48, longitude := 2, apparition := 1 }]
      (by with_unfolding_all rfl),
    c5_citykey_unique.2 _ _ rfl (by decide)⟩

/-- C7: CityKey synthesis happens before the region-based row drop: every
row that survives cleaning originates from a raw row with a non-missing
region and carries `cp_ville = postal_code ++ " " ++ city` of that raw
row, with its region, department and price columns carried over and its
geometry the decode of the raw geometry text. -/
theorem c7_key_before_drop :
    ∀ (rows : List RawRow) (cleaned : List CleanRow),
      data_cleaning rows = Except.ok cleaned →
      ∀ c ∈ cleaned, ∃ r ∈ rows, r.region.isSome ∧
        c.cp_ville = r.codePostal ++ " " ++ r.ville ∧
        c.region = r.region ∧ c.departement = r.departement ∧
        c.prices = r.prices ∧ decodeGeom r.geom = Except.ok c.geom := by
  intro rows cleaned h c hc
  unfold data_cleaning at h
  rcases mapOrFail_ok_mem h c hc with ⟨kr, hkr, hdec⟩
  rcases List.mem_filter.mp hkr with ⟨hmem, hreg⟩
  rcases List.mem_map.mp hmem with ⟨r, hr, rfl⟩
  rcases decodeKeyed_ok_fields hdec with ⟨e1, e2, e3, e4, e5⟩
  refine ⟨r, hr, ?_, ?_, ?_, ?_, ?_, ?_⟩
  · simpa [addKey] using hreg
  · rw [e4]; rfl
  · rw [e1]; rfl
  · rw [e2]; rfl
  · rw [e3]; rfl
  · exact e5

/-- C7 (witness): the theorem applied to a concrete one-row table. -/
theorem c7_witness :
    ∃ r ∈ [({ region := some "Île-de-France", departement := some "Paris",
              codePostal := "75001", ville := "Paris", geom := "48, 2",
              prices := ⟨none, none, none, none, none, none⟩ } : RawRow)],
      r.region.isSome ∧
      ("75001 Paris" : String) = r.codePostal ++ " " ++ r.ville ∧
      (some "Île-de-France" : Option String) = r.region ∧
      (some "Paris" : Option String) = r.departement ∧
      (⟨none, none, none, none, none, none⟩ : Prices) = r.prices ∧
      decodeGeom r.geom = Except.ok [(48 : ℚ), 2] :=
  c7_key_before_drop _ _
    (by with_unfolding_all rfl)
    { region := some "Île-de-France", departement := some "Paris",
      geom := [48, 2], prices := ⟨none, none, none, none, none, none⟩,
      cp_ville := "75001 Paris" }
    (List.mem_singleton.mpr rfl)

end FuelPipeline

namespace FuelPipeline

/-- C8: for every CityKey, the region and department values of its output
row are the first non-null region and department values observed for that
key in row order: a matching row with a non-null value placed after any
prefix whose matching rows are all null determines the result, and no row
occurring later can affect it.  The last conjunct ties the per-key geo
reduction to the rows of the aggregated output. -/
theorem c8_first_observed_geo :
    (∀ (l1 l2 : List CleanRow) (k : String) (c : CleanRow),
        c.cp_ville = k → (∀ c' ∈ rowsOf l1 k, c'.region = none) →
        c.region.isSome →
        city_geo_region (l1 ++ c :: l2) k = c.region) ∧
    (∀ (l1 l2 : List CleanRow) (k : String) (c : CleanRow),
        c.cp_ville = k → (∀ c' ∈ rowsOf l1 k, c'.departement = none) →
        c.departement.isSome →
        city_geo_departement (l1 ++ c :: l2) k = c.departement) ∧
    (∀ (cleaned : List CleanRow) (aggs : List CityAggregate) (a : CityAggregate),
        compute_new_dataframe cleaned = Except.ok aggs → a ∈ aggs →
        a.region = city_geo_region cleaned a.cp_ville ∧
        a.departement = city_geo_departement cleaned a.cp_ville) := by
  refine ⟨?_, ?_, ?_⟩
  · intro l1 l2 k c hck hnone hsome
    rcases Option.isSome_iff_exists.mp hsome with ⟨v, hv⟩
    have hnil : (rowsOf l1 k).filterMap (fun r => r.region) = [] :=
      List.filterMap_eq_nil_iff.mpr hnone
    unfold rowsOf at hnil
    unfold city_geo_region rowsOf
    simp [List.filter_append, List.filter_cons, hck, hv, hnil]
  · intro l1 l2 k c hck hnone hsome
    rcases Option.isSome_iff_exists.mp hsome with ⟨v, hv⟩
    have hnil : (rowsOf l1 k).filterMap (fun r => r.departement) = [] :=
      List.filterMap_eq_nil_iff.mpr hnone
    unfold rowsOf at hnil
    unfold city_geo_departement rowsOf
    simp [List.filter_append, List.filter_cons, hck, hv, hnil]
  · intro cleaned aggs a h ha
    unfold compute_new_dataframe at h
    rcases mapOrFail_ok_mem h a ha with ⟨k, _, hk⟩
    rcases mkAggregate_ok_fields hk with ⟨h1, h2, h3, _, _⟩
    subst h1
    exact ⟨h2, h3⟩

/-- C8 (witness): the first-non-null halves applied to a concrete group in
which the first matching row carries null region and department. -/
theorem c8_witness :
    city_geo_region
        ([{ region := none, departement := none, geom := [],
            prices := ⟨none, none, none, none, none, none⟩,
            cp_ville := "75001 Paris" }] ++
          ({ region := some "Île-de-France", departement := some "Paris",
             geom := [], prices := ⟨none, none, none, none, none, none⟩,
             cp_ville := "75001 Paris" } : CleanRow) :: [])
        "75001 Paris" = some "Île-de-France" ∧
    city_geo_departement
        ([{ region := none, departement := none, geom := [],
            prices := ⟨none, none, none, none, none, none⟩,
            cp_ville := "75001 Paris" }] ++
          ({ region := some "Île-de-France", departement := some "Paris",
             geom := [], prices := ⟨none, none, none, none, none, none⟩,
             cp_ville := "75001 Paris" } : CleanRow) :: [])
        "75001 Paris" = some "Paris" :=
  ⟨c8_first_observed_geo.1 _ [] "75001 Paris" _ rfl (by decide) (by decide),
    (c8_first_observed_geo.2).1 _ [] "75001 Paris" _ rfl (by decide) (by decide)⟩

end FuelPipeline

namespace FuelPipeline

theorem keyed_filter_absorb (rs : List RawRow) :
    (((rs.filter (fun r => r.region.isSome)).map addKey).filter
        (fun kr => kr.region.isSome)) =
      ((rs.map addKey).filter (fun kr => kr.region.isSome)) := by
  rw [List.filter_map, List.filter_map, List.filter_filter]
  congr 1
  apply List.filter_congr
  intro r _
  simp [addKey]

/-- C6: raw rows whose region value is missing contribute to no output row
at all — running the whole pipeline on a table is the same as running it on
the table with those rows removed — and every output row's `Apparition`
count equals exactly the number of raw rows that share its CityKey after
the region-missing rows are dropped. -/
theorem c6_region_missing_excluded :
    (∀ rows : List RawRow,
        process_data rows =
          process_data (rows.filter (fun r => r.region.isSome))) ∧
    (∀ (rows : List RawRow) (aggs : List CityAggregate) (a : CityAggregate),
        process_data rows = Except.ok aggs → a ∈ aggs →
        a.apparition =
          (rows.filter
              (fun r => r.region.isSome && (mkKey r == a.cp_ville))).length) := by
  constructor
  · intro rows
    unfold process_data data_cleaning
    rw [keyed_filter_absorb rows]
  · intro rows aggs a h ha
    unfold process_data at h
    cases hcln : data_cleaning rows with
    | error e => rw [hcln] at h; cases h
    | ok cleaned =>
      rw [hcln] at h
      unfold compute_new_dataframe at h
      rcases mapOrFail_ok_mem h a ha with ⟨k, _, hk⟩
      rcases mkAggregate_ok_fields hk with ⟨h1, _, _, _, h5⟩
      subst h1
      rw [h5]
      have hcorr := data_cleaning_ok_corr hcln
      have hkeys : cleaned.map (fun c => c.cp_ville) =
          (rows.filter (fun r => r.region.isSome)).map (fun r => mkKey r) := by
        have h6 := congrArg
          (List.map (fun t : String × Option String × Option String × Prices => t.1))
          hcorr
        simpa [List.map_map] using h6
      unfold rowsOf
      calc (cleaned.filter (fun c => c.cp_ville == a.cp_ville)).length
          = cleaned.countP (fun c => c.cp_ville == a.cp_ville) :=
            (List.countP_eq_length_filter _ _).symm
        _ = (cleaned.map (fun c => c.cp_ville)).countP (fun s => s == a.cp_ville) :=
            (List.countP_map (fun s => s == a.cp_ville)
              (fun c : CleanRow => c.cp_ville) cleaned).symm
        _ = ((rows.filter (fun r => r.region.isSome)).map
              (fun r => mkKey r)).countP (fun s => s == a.cp_ville) := by rw [hkeys]
        _ = (rows.filter (fun r => r.region.isSome)).countP
              (fun r => mkKey r == a.cp_ville) :=
            List.countP_map (fun s => s == a.cp_ville) (fun r : RawRow => mkKey r)
              (rows.filter (fun r => r.region.isSome))
        _ = ((rows.filter (fun r => r.region.isSome)).filter
              (fun r => mkKey r == a.cp_ville)).length :=
            List.countP_eq_length_filter _ _
        _ = (rows.filter
              (fun r => (mkKey r == a.cp_ville) && r.region.isSome)).length := by
            rw [List.filter_filter]
        _ = (rows.filter
              (fun r => r.region.isSome && (mkKey r == a.cp_ville))).length := by
            rw [filter_and_comm]

/-- C6 (witness): the `Apparition` half applied to a concrete run with one
region-carrying row and one region-missing row of the same city. -/
theorem c6_witness :
    ({ cp_ville := "75001 Paris", region := some "Île-de-France",
       departement := some "Paris",
       prices := ⟨none, none, none, none, none, none⟩,
       latitude := 48, longitude := 2, apparition := 1 } : CityAggregate).apparition =
      ([({ region := some "Île-de-France", departement := some "Paris",
           codePostal := "75001", ville := "Paris", geom := "48, 2",
           prices := ⟨none, none, none, none, none, none⟩ } : RawRow),
        { region := none, departement := none,
          codePostal := "75001", ville := "Paris", geom := "",
          prices := ⟨none, none, none, none, none, none⟩ }].filter
          (fun r => r.region.isSome && (mkKey r == "75001 Paris"))).length :=
  c6_region_missing_excluded.2
    [{ region := some "Île-de-France", departement := some "Paris",
       codePostal := "75001", ville := "Paris", geom := "48, 2",
       prices := ⟨none, none, none, none, none, none⟩ },
     { region := none, departement := none,
       codePostal := "75001", ville := "Paris", geom := "",
       prices := ⟨none, none, none, none, none, none⟩ }]
    [{ cp_ville := "75001 Paris", region := some "Île-de-France",
       departement := some "Paris",
       prices := ⟨none, none, none, none, none, none⟩,
       latitude := 48, longitude := 2, apparition := 1 }]
    { cp_ville := "75001 Paris", region := some "Île-de-France",
      departement := some "Paris",
      prices := ⟨none, none, none, none, none, none⟩,
      latitude := 48, longitude := 2, apparition := 1 }
    (by with_unfolding_all rfl)
    (List.mem_singleton.mpr rfl)

end FuelPipeline

namespace FuelPipeline

theorem fuelSel_prices_means (j : Fin 6) (rows : List CleanRow) (k : String) :
    fuelSel j (city_prices_means rows k) =
      priceColMean ((rowsOf rows k).map (fun r => fuelSel j r.prices)) := by
  fin_cases j <;> rfl

/-- C4: for every CityKey and each of the six fuel types independently,
the output mean price is the arithmetic mean over exactly the
post-cleaning rows of that key whose value for that fuel is present:
absent values are excluded from both numerator and denominator (inserting
an absent value anywhere leaves the mean unchanged), a fuel reported by no
row of the key yields an absent output value rather than zero, and a city
with prices 1.20, 1.40 and absent for one fuel yields mean 1.30. -/
theorem c4_price_means :
    (∀ (j : Fin 6) (rows : List RawRow) (aggs : List CityAggregate)
        (a : CityAggregate),
        process_data rows = Except.ok aggs → a ∈ aggs →
        fuelSel j a.prices =
          priceColMean
            ((rows.filter
                (fun r => r.region.isSome && (mkKey r == a.cp_ville))).map
              (fun r => fuelSel j r.prices))) ∧
    (∀ l1 l2 : List (Option ℚ),
        priceColMean (l1 ++ none :: l2) = priceColMean (l1 ++ l2)) ∧
    (∀ vals : List (Option ℚ), priceColMean vals = none ↔ vals.filterMap id = []) ∧
    priceColMean [some ((6 : ℚ)/5), some ((7 : ℚ)/5), none] = some ((13 : ℚ)/10) := by
  refine ⟨?_, ?_, ?_, ?_⟩
  · intro j rows aggs a h ha
    unfold process_data at h
    cases hcln : data_cleaning rows with
    | error e => rw [hcln] at h; cases h
    | ok cleaned =>
      rw [hcln] at h
      unfold compute_new_dataframe at h
      rcases mapOrFail_ok_mem h a ha with ⟨k, _, hk⟩
      rcases mkAggregate_ok_fields hk with ⟨h1, _, _, h4, _⟩
      subst h1
      rw [h4, fuelSel_prices_means]
      have hcorr := data_cleaning_ok_corr hcln
      have hpair : cleaned.map (fun c => (c.cp_ville, fuelSel j c.prices)) =
          (rows.filter (fun r => r.region.isSome)).map
            (fun r => (mkKey r, fuelSel j r.prices)) := by
        have h6 := congrArg
          (List.map
            (fun t : String × Option String × Option String × Prices =>
              (t.1, fuelSel j t.2.2.2)))
          hcorr
        simpa [List.map_map] using h6
      have hfil := filtered_map_of_pair_map_eq
        (fun c : CleanRow => c.cp_ville)
        (fun c : CleanRow => fuelSel j c.prices)
        (fun r : RawRow => mkKey r)
        (fun r : RawRow => fuelSel j r.prices)
        hpair a.cp_ville
      unfold rowsOf
      rw [hfil, List.filter_filter, filter_and_comm]
  · intro l1 l2
    simp [priceColMean, List.filterMap_append]
  · intro vals
    simp only [priceColMean]
    cases h : vals.filterMap id with
    | nil => simp [h]
    | cons a l => simp [h]
  · with_unfolding_all rfl

/-- C4 (witness): the pipeline half applied to a concrete three-row city
whose first fuel has prices 1.20, 1.40 and absent. -/
theorem c4_witness :
    fuelSel 0 (⟨some ((13 : ℚ)/10), none, none, none, none, none⟩ : Prices) =
      priceColMean
        (([({ region := some "Île-de-France", departement := some "Paris",
              codePostal := "75001", ville := "Paris", geom := "48, 2",
              prices := ⟨some ((6 : ℚ)/5), none, none, none, none, none⟩ } : RawRow),
           { region := some "Île-de-France", departement := some "Paris",
             codePostal := "75001", ville := "Paris", geom := "48, 2",
             prices := ⟨some ((7 : ℚ)/5), none, none, none, none, none⟩ },
           { region := some "Île-de-France", departement := some "Paris",
             codePostal := "75001", ville := "Paris", geom := "48, 2",
             prices := ⟨none, none, none, none, none, none⟩ }].filter
            (fun r => r.region.isSome && (mkKey r == "75001 Paris"))).map
          (fun r => fuelSel 0 r.prices)) :=
  c4_price_means.1 0
    [{ region := some "Île-de-France", departement := some "Paris",
       codePostal := "75001", ville := "Paris", geom := "48, 2",
       prices := ⟨some ((6 : ℚ)/5), none, none, none, none, none⟩ },
     { region := some "Île-de-France", departement := some "Paris",
       codePostal := "75001", ville := "Paris", geom := "48, 2",
       prices := ⟨some ((7 : ℚ)/5), none, none, none, none, none⟩ },
     { region := some "Île-de-France", departement := some "Paris",
       codePostal := "75001", ville := "Paris", geom := "48, 2",
       prices := ⟨none, none, none, none, none, none⟩ }]
    [{ cp_ville := "75001 Paris", region := some "Île-de-France",
       departement := some "Paris",
       prices := ⟨some ((13 : ℚ)/10), none, none, none, none, none⟩,
       latitude := 48, longitude := 2, apparition := 3 }]
    { cp_ville := "75001 Paris", region := some "Île-de-France",
      departement := some "Paris",
      prices := ⟨some ((13 : ℚ)/10), none, none, none, none, none⟩,
      latitude := 48, longitude := 2, apparition := 3 }
    (by with_unfolding_all rfl)
    (List.mem_singleton.mpr rfl)

end FuelPipeline
